import Mathlib

/-!
Shallow embedding of `src/data_collection/github_collector.py`
(class `GitDataCollector`) and proofs about its behaviour.

HTTP effects are modelled by oracle functions (`String → FetchResult α`):
a URL is mapped either to a transport-level fault (the `requests` call
raises `RequestException`) or to a response carrying a status code, a
decoded JSON body and the optional `Link` header.  Python exceptions that
the code lets escape are modelled with `Except`.
-/

namespace GithubCollector

/-- A Python exception class, as far as the collector distinguishes them. -/
inductive PyExn
  | indexError
  | keyError
  | sqliteError
  | mysqlError
  | mongoError
  deriving DecidableEq, Repr

deriving instance DecidableEq for Except

/-- An HTTP response as seen by the collector: status code, decoded JSON
body (`response.json()`), and the optional `Link` header
(`response.headers.get("Link")`). -/
structure HttpResponse (α : Type) where
  status : Nat
  body : α
  linkHeader : Option String
  deriving DecidableEq, Repr

/-- Outcome of one `requests.get` call: either a response or a
transport-level fault (a raised `RequestException`). -/
inductive FetchResult (α : Type)
  | ok (r : HttpResponse α)
  | transportFault
  deriving DecidableEq, Repr

/-- Embeds `GitDataCollector.make_api_request` (lines 105–115): issue the request,
call `raise_for_status()` (which raises exactly for 400 ≤ status < 600),
catch every `RequestException` and return `None` for it. -/
def make_api_request {α : Type} (server : String → FetchResult α) (url : String) :
    Option (HttpResponse α) :=
  match server url with
  | .transportFault => none
  | .ok r => if 400 ≤ r.status ∧ r.status < 600 then none else some r

/-- Outcome of the single `requests.get(self.base_url, ...)` issued by
`is_token_valid`: a transport fault or a status code. -/
inductive IdentityOutcome
  | fault
  | response (status : Nat)
  deriving DecidableEq, Repr

/-- Embeds `GitDataCollector.is_token_valid` (lines 90–103).  The `requests.get`
call is NOT wrapped in any `try`: a transport fault propagates out of the
method (`Except.error`).  Otherwise: `if response is not None and
response.status_code != 200: return False else: return response is not
None and response.status_code == 200`. -/
def is_token_valid (o : IdentityOutcome) : Except Unit Bool :=
  match o with
  | .fault => .error ()
  | .response s =>
      if s ≠ 200 then
        .ok false
      else
        .ok (decide (s = 200))

/-- Python `dict` lookup `d.get(k)` on a dict built by a comprehension:
later bindings for the same key overwrite earlier ones, so the value is
the LAST one in the source list. -/
def pyDictGet {β : Type} (l : List (String × β)) (k : String) : Option β :=
  (l.reverse.find? (fun p => p.1 == k)).map (fun p => p.2)

/-- Worker for Python `str.split` with a non-empty separator: scan left
to right, cut at each non-overlapping occurrence of `sep`.  `fuel`
(≥ the length of the remaining input) only makes the recursion
structural; it is never exhausted. -/
def pySplitAux (sep : List Char) : Nat → List Char → List Char → List (List Char)
  | 0, s, cur => [cur ++ s]
  | _ + 1, [], cur => [cur]
  | fuel + 1, c :: rest, cur =>
      if sep.isPrefixOf (c :: rest) then
        cur :: pySplitAux sep fuel ((c :: rest).drop sep.length) []
      else
        pySplitAux sep fuel rest (cur ++ [c])

/-- Python `s.split(sep)` for a non-empty separator, e.g.
`"a, b".split(", ") = ["a", "b"]` and `"".split(", ") = [""]`. -/
def pySplit (sep s : String) : List String :=
  (pySplitAux sep.toList (s.toList.length + 1) s.toList []).map String.mk

/-- Python slice `s[i:-1]`: drop the first `i` characters and the last
one, empty when they overlap. -/
def pySliceToLast (i : Nat) (s : String) : String :=
  String.mk ((s.toList.drop i).dropLast)

/-- One segment of the `Link` header, as destructured by
`rel.split("; ")[1][5:-1]` / `rel.split("; ")[0][1:-1]` (line 129).
A segment with no `"; "` separator makes `[1]` raise `IndexError`. -/
def parseSegment (seg : String) : Except PyExn (String × String) :=
  match pySplit "; " seg with
  | [] => .error .indexError
  | [_] => .error .indexError
  | p0 :: p1 :: _ => .ok (pySliceToLast 5 p1, pySliceToLast 1 p0)

/-- The dict comprehension over `link_header.split(", ")` followed by
`links.get("next")` (lines 128–132).  Any malformed segment aborts the
whole comprehension with `IndexError`. -/
def parseLinkHeader (s : String) : Except PyExn (Option String) := do
  let pairs ← (pySplit ", " s).mapM parseSegment
  pure (pyDictGet pairs "next")

/-- The `while` loop of `get_all_paginated_items` (lines 122–137), with
`fuel = max_pages - page_count` (the guard `page_count < max_pages` is
`0 < fuel`).  `follows` is the running value of `page_count`.  Python
truthiness: the loop also stops when `url` is `None` or the empty string,
and an empty `Link` header string is falsy (`if link_header:`), hence a
break.  An `IndexError` from the header parse propagates, losing the
accumulated items. -/
def walkAux {α : Type} (server : String → FetchResult (List α)) :
    Nat → Option String → List α → Nat → Except PyExn (List α × Nat)
  | _, none, acc, follows => .ok (acc, follows)
  | 0, some _, acc, follows => .ok (acc, follows)
  | fuel + 1, some u, acc, follows =>
      if u = "" then .ok (acc, follows)
      else
        match make_api_request server u with
        | none => .ok (acc, follows)
        | some r =>
            match r.linkHeader with
            | none => .ok (acc ++ r.body, follows)
            | some lh =>
                if lh = "" then .ok (acc ++ r.body, follows)
                else do
                  let next ← parseLinkHeader lh
                  walkAux server fuel next (acc ++ r.body) (follows + 1)

/-- Embeds `GitDataCollector.get_all_paginated_items` (lines 117–139):
returns the accumulated `items`, or the escaped `IndexError`. -/
def get_all_paginated_items {α : Type} (server : String → FetchResult (List α))
    (maxPages : Int) (url : String) : Except PyExn (List α) :=
  (walkAux server maxPages.toNat (some url) [] 0).map (fun p => p.1)

/-- Insert one binding into a Python `dict` (association list model):
an existing key keeps its position and gets the new value, a new key is
appended. -/
def pyDictInsert {β : Type} (d : List (String × β)) (k : String) (v : β) :
    List (String × β) :=
  if d.any (fun p => p.1 == k) then
    d.map (fun p => if p.1 == k then (k, v) else p)
  else
    d ++ [(k, v)]

/-- Build a Python `dict` from a comprehension's key/value stream. -/
def pyDictOfList {β : Type} (l : List (String × β)) : List (String × β) :=
  l.foldl (fun d p => pyDictInsert d p.1 p.2) []

/-- The `stats` object of a commit-detail response:
`{additions, deletions}`. -/
structure CommitStats where
  additions : Int
  deletions : Int
  deriving DecidableEq, Repr

/-- One element of the `files` array of a commit-detail response;
`patch` is optional (`file.get("patch", "No diff available")`). -/
structure FileEntry where
  filename : String
  patch : Option String
  deriving DecidableEq, Repr

/-- Decoded JSON body of the per-commit detail endpoint:
`{sha, stats:{additions, deletions}, files:[...]}`, where `files` is read
with `.get("files", [])`. -/
structure CommitData where
  sha : String
  stats : CommitStats
  files : Option (List FileEntry)
  deriving DecidableEq, Repr

/-- The dict built by `create_commit_info`: either the full detail dict
`{commit_id, additions, deletions, files_diff}` or the one-key error dict
`{"error": ...}`. -/
inductive CommitInfo
  | detail (commit_id : String) (additions deletions : Int)
      (files_diff : List (String × String))
  | fetchError (msg : String)
  deriving DecidableEq, Repr

/-- Number of keys of the dict `create_commit_info` returns; its Python
truthiness is `keyCount ≠ 0`. -/
def CommitInfo.keyCount : CommitInfo → Nat
  | .detail _ _ _ _ => 4
  | .fetchError _ => 1

/-- Embeds `GitDataCollector.create_commit_info` (lines 203–228): on a response
with status exactly 200, the detail dict (with `files_diff` built by a
dict comprehension defaulting absent patches to `"No diff available"`);
otherwise the error dict naming the offending URL. -/
def create_commit_info (detailServer : String → FetchResult CommitData)
    (commit_url : String) : CommitInfo :=
  match make_api_request detailServer commit_url with
  | some r =>
      if r.status = 200 then
        .detail r.body.sha r.body.stats.additions r.body.stats.deletions
          (pyDictOfList ((r.body.files.getD []).map
            (fun f => (f.filename, f.patch.getD "No diff available"))))
      else
        .fetchError ("Failed to fetch commit data for " ++ commit_url)
  | none => .fetchError ("Failed to fetch commit data for " ++ commit_url)

/-- One element of a PR's commit-list response; the code reads
`commit["url"]`. -/
structure CommitRef where
  url : String
  deriving DecidableEq, Repr

/-- Embeds `GitDataCollector.fetch_commits` (lines 161–173): the commit list is
the body on a 200 response and `[]` on any other outcome; each listed
commit contributes `create_commit_info` of its URL, appended only when
the resulting dict is truthy (it always has ≥ 1 key). -/
def fetch_commits (listServer : String → FetchResult (List CommitRef))
    (detailServer : String → FetchResult CommitData) (commits_url : String) :
    List CommitInfo :=
  let commits_data :=
    match make_api_request listServer commits_url with
    | some r => if r.status = 200 then r.body else []
    | none => []
  (commits_data.map (fun c => create_commit_info detailServer c.url)).filter
    (fun ci => ci.keyCount ≠ 0)

/-- One element of a PR's comments response; the code reads
`comment["body"]`. -/
structure Comment where
  body : String
  deriving DecidableEq, Repr

/-- Embeds `GitDataCollector.fetch_comments` (lines 153–159): bodies of a 200
response joined by `" ".join(...)`; `[]` (hence `""`) on any other
outcome. -/
def fetch_comments (server : String → FetchResult (List Comment))
    (pr_comments_url : String) : String :=
  let comments_data :=
    match make_api_request server pr_comments_url with
    | some r => if r.status = 200 then r.body else []
    | none => []
  String.intercalate " " (comments_data.map (fun c => c.body))

/-- The `user` object of a PR summary; the code reads
`pr["user"]["login"]`. -/
structure User where
  login : Option String
  deriving DecidableEq, Repr

/-- A PR summary dict as consumed by `build_pr_data_row`.  `none` models
an ABSENT key: `pr["k"]` raises `KeyError` on it, while the two `.get`
reads (`requested_reviewers`, `comments`) substitute their defaults. -/
structure PRSummary where
  comments_url : Option String
  commits_url : Option String
  id : Option Int
  state : Option String
  created_at : Option String
  updated_at : Option String
  merged_at : Option String
  title : Option String
  user : Option User
  diff_url : Option String
  body : Option String
  requested_reviewers : Option (List String)
  comments : Option Int
  deriving DecidableEq, Repr

/-- A Python value that is either an `int` or a `str` (the dynamically
typed `pr_commits_count` field). -/
inductive IntOrStr
  | int (n : Nat)
  | str (s : String)
  deriving DecidableEq, Repr

/-- The `pr_data` dict assembled by `build_pr_data_row` (lines 237–253),
field for field (including the `pr_reviwer` spelling). -/
structure PRData where
  repo_name : String
  pr_id : Int
  pr_state : String
  pr_created_at : String
  pr_updated_at : String
  pr_merged_at : String
  pr_title : String
  pr_user_login : String
  pr_diff_url : String
  pr_body : String
  pr_reviwer : List String
  pr_comments_count : Int
  pr_comments : String
  pr_commits_count : IntOrStr
  pr_commits_info : List CommitInfo
  deriving DecidableEq, Repr

/-- Python subscript `pr["k"]`: the value, or a raised `KeyError`. -/
def pyGetItem {α : Type} : Option α → Except PyExn α
  | none => .error .keyError
  | some a => .ok a

/-- The `try` body of `build_pr_data_row` before the `except` (lines
232–254): every `pr["k"]` access may raise. -/
def build_pr_data_row_body (cs : String → FetchResult (List Comment))
    (ls : String → FetchResult (List CommitRef))
    (ds : String → FetchResult CommitData)
    (pr : PRSummary) (repo_name : String) : Except PyExn PRData := do
  let comments_url ← pyGetItem pr.comments_url
  let comments_str := fetch_comments cs comments_url
  let commits_url ← pyGetItem pr.commits_url
  let commits_info := fetch_commits ls ds commits_url
  let commits_count :=
    if commits_info.isEmpty then IntOrStr.str "N/A"
    else IntOrStr.int commits_info.length
  let i ← pyGetItem pr.id
  let st ← pyGetItem pr.state
  let cr ← pyGetItem pr.created_at
  let up ← pyGetItem pr.updated_at
  let mg ← pyGetItem pr.merged_at
  let ti ← pyGetItem pr.title
  let u ← pyGetItem pr.user
  let lg ← pyGetItem u.login
  let du ← pyGetItem pr.diff_url
  let bo ← pyGetItem pr.body
  pure
    { repo_name := repo_name
      pr_id := i
      pr_state := st
      pr_created_at := cr
      pr_updated_at := up
      pr_merged_at := mg
      pr_title := ti
      pr_user_login := lg
      pr_diff_url := du
      pr_body := bo
      pr_reviwer := pr.requested_reviewers.getD []
      pr_comments_count := pr.comments.getD 0
      pr_comments := comments_str
      pr_commits_count := commits_count
      pr_commits_info := commits_info }

/-- Embeds `GitDataCollector.build_pr_data_row` (lines 230–259): the broad
`except Exception` catches everything raised in the body and returns
`None`. -/
def build_pr_data_row (cs : String → FetchResult (List Comment))
    (ls : String → FetchResult (List CommitRef))
    (ds : String → FetchResult CommitData)
    (pr : PRSummary) (repo_name : String) : Option PRData :=
  match build_pr_data_row_body cs ls ds pr repo_name with
  | .ok d => some d
  | .error _ => none

/-- All keys that `build_pr_data_row` reads with a raising subscript are
present (including `pr["user"]["login"]`). -/
def PRWellFormed (pr : PRSummary) : Bool :=
  pr.comments_url.isSome && pr.commits_url.isSome && pr.id.isSome &&
  pr.state.isSome && pr.created_at.isSome && pr.updated_at.isSome &&
  pr.merged_at.isSome && pr.title.isSome &&
  (match pr.user with | some u => u.login.isSome | none => false) &&
  pr.diff_url.isSome && pr.body.isSome

/-- The row-accumulation loop of `create_dataframe_with_prs` (lines
263–281, identical in both branches): `if pr_data: rows.append(pr_data)`
— a `None` result is skipped, a dict (always truthy) is appended. -/
def create_dataframe_rows (cs : String → FetchResult (List Comment))
    (ls : String → FetchResult (List CommitRef))
    (ds : String → FetchResult CommitData)
    (prs : List PRSummary) (repo_name : String) : List PRData :=
  prs.foldl
    (fun rows pr =>
      match build_pr_data_row cs ls ds pr repo_name with
      | some d => rows ++ [d]
      | none => rows) []

/-- The collector state set up by `GitDataCollector.__init__`
(lines 58–88); only the fields the claims touch. -/
structure GitDataCollector where
  organization : String
  token : String
  base_url : String
  max_pages : Int
  per_page : Int
  repo : Option String
  deriving DecidableEq, Repr

/-- Embeds `GitDataCollector.__init__` (lines 58–88).  `if max_pages:` — Python
truthiness makes both `None` and `0` fall to the default `100000`;
`if per_page and per_page < 100:` keeps a truthy value below 100
(negative included) and otherwise uses `100`. -/
def mkGitDataCollector (organization token url : String)
    (max_pages per_page : Option Int) (repo : Option String) :
    GitDataCollector :=
  { organization := organization
    token := token
    base_url := url
    max_pages :=
      match max_pages with
      | some m => if m ≠ 0 then m else 100000
      | none => 100000
    per_page :=
      match per_page with
      | some p => if p ≠ 0 ∧ p < 100 then p else 100
      | none => 100
    repo := repo }

/-- The `database_type` discriminator read from `db_config`. -/
inductive DbType
  | mysql
  | sqlite
  | other
  deriving DecidableEq, Repr

/-- Outcome of `cursor.execute(...)` + `commit()`, tagged with the
exception class when it raises. -/
inductive ExecOutcome
  | ok
  | raise (e : PyExn)
  deriving DecidableEq, Repr

/-- The ambient database world `insert_pr_data` runs against:
`mysqlConnect` is the outcome of `mysql.connector.connect(...)`
(`.error` = a raised `mysql.connector.Error`, `.ok b` = a connection
whose `is_connected()` returns `b`); `sqliteConnect` is the outcome of
`sqlite3.connect` + `create_sqlite_table` (`.error` = a raised
`sqlite3.Error`); `exec` is the outcome of the insert. -/
structure DbEnv where
  dbType : DbType
  mysqlConnect : Except Unit Bool
  sqliteConnect : Except Unit Unit
  exec : ExecOutcome
  deriving Repr

/-- Embeds `GitDataCollector.connect_to_db` (lines 284–302): each branch catches
ITS OWN library's error class and returns `None`; an unknown
`database_type`, a MySQL connection that is not `is_connected()`, or any
caught error all yield `None`. -/
def connect_to_db (env : DbEnv) : Option Unit :=
  match env.dbType with
  | .mysql =>
      match env.mysqlConnect with
      | .ok true => some ()
      | .ok false => none
      | .error _ => none
  | .sqlite =>
      match env.sqliteConnect with
      | .ok _ => some ()
      | .error _ => none
  | .other => none

/-- Embeds `GitDataCollector.insert_pr_data` (lines 340–381): the `try` around
the insert is guarded by `except Error` where `Error` is imported from
`sqlite3` (line 5) — only `sqlite3.Error` is caught; any other exception
class raised by the execute escapes the method. -/
def insert_pr_data (env : DbEnv) : Except PyExn Unit :=
  match connect_to_db env with
  | none => .ok ()
  | some _ =>
      match env.exec with
      | .ok => .ok ()
      | .raise .sqliteError => .ok ()
      | .raise e => .error e

/-- Embeds `GitDataCollector.insert_pr_body_mongodb` (lines 327–338): build the
client, `insert_one` (the oracle `ins`, returning the inserted id), print
and close.  The method body contains NO `try`/`except`: a raised
`pymongo` exception propagates to the caller. -/
def insert_pr_body_mongodb (ins : Except PyExn Nat) : Except PyExn Unit := do
  let _inserted_id ← ins
  pure ()

/-! Concrete fixtures used to instantiate the theorems below. -/

/-- A server with two linked pages: `p1` carries items `[1, 2]` and a
`Link` header pointing to `p2`, which carries `[3]` and no header. -/
def twoPageServer : String → FetchResult (List Nat) := fun u =>
  if u = "p1" then .ok ⟨200, [1, 2], some ("<p2>; rel=\"next\"")⟩
  else if u = "p2" then .ok ⟨200, [3], none⟩
  else .transportFault

/-- A server whose single page carries a header that parses but holds no
`next` relation. -/
def noNextHeaderServer : String → FetchResult (List Nat) := fun u =>
  if u = "p1" then .ok ⟨200, [5], some "x; y"⟩ else .transportFault

/-- A server whose single page carries a header with a segment lacking
the `"; "` separator. -/
def malformedHeaderServer : String → FetchResult (List Nat) :=
  fun _ => .ok ⟨200, [7], some "garbage"⟩

/-- A comments endpoint returning two comments. -/
def helloWorldCommentServer : String → FetchResult (List Comment) :=
  fun _ => .ok ⟨200, [⟨"hello"⟩, ⟨"world"⟩], none⟩

/-- A comments endpoint returning one comment. -/
def singleCommentServer : String → FetchResult (List Comment) :=
  fun _ => .ok ⟨200, [⟨"hello"⟩], none⟩

/-- A server on which every request is a transport fault. -/
def failingServer (α : Type) : String → FetchResult α := fun _ => .transportFault

/-- A commit-list endpoint listing two commit URLs. -/
def twoCommitListServer : String → FetchResult (List CommitRef) :=
  fun _ => .ok ⟨200, [⟨"c1"⟩, ⟨"c2"⟩], none⟩

/-- A commit-detail endpoint that succeeds on `c1` and faults on
everything else. -/
def oneCommitDetailServer : String → FetchResult CommitData :=
  fun u =>
    if u = "c1" then .ok ⟨200, ⟨"sha1", ⟨3, 1⟩, some [⟨"f.py", some "@@"⟩]⟩, none⟩
    else .transportFault

/-- A PR summary with every required key present. -/
def samplePR : PRSummary :=
  ⟨some "cu", some "mu", some 9, some "open", some "t0", some "t1", some "t2",
   some "Title", some ⟨some "alice"⟩, some "du", some "Body", some [], some 0⟩

/-- `samplePR` with the required `title` key removed. -/
def missingTitlePR : PRSummary := { samplePR with title := none }

/-- The row `build_pr_data_row` assembles for `samplePR` against
`singleCommentServer` and failing commit endpoints. -/
def samplePRRecord : PRData :=
  { repo_name := "r", pr_id := 9, pr_state := "open", pr_created_at := "t0",
    pr_updated_at := "t1", pr_merged_at := "t2", pr_title := "Title",
    pr_user_login := "alice", pr_diff_url := "du", pr_body := "Body",
    pr_reviwer := [], pr_comments_count := 0, pr_comments := "hello",
    pr_commits_count := .str "N/A", pr_commits_info := [] }

/-- A chain of server-linked pages starting at `u`: each page responds
with status 200, every page but the last carries a non-empty `Link`
header whose parse yields the next page's URL as the `next` relation,
and the last page carries no header. -/
inductive LinkedChain {α : Type} (server : String → FetchResult (List α)) :
    String → List (List α) → Prop
  | single (u : String) (p : List α) (hu : u ≠ "")
      (hs : server u = .ok ⟨200, p, none⟩) : LinkedChain server u [p]
  | cons (u u' : String) (p : List α) (ps : List (List α)) (lh : String)
      (hu : u ≠ "") (hs : server u = .ok ⟨200, p, some lh⟩) (hlh : lh ≠ "")
      (hparse : parseLinkHeader lh = .ok (some u'))
      (rest : LinkedChain server u' ps) : LinkedChain server u (p :: ps)

/-! Helper lemmas. -/

theorem except_bind_ok {ε α β : Type} (a : α) (f : α → Except ε β) :
    ((Except.ok a : Except ε α) >>= f) = f a := rfl

theorem except_bind_error {ε α β : Type} (e : ε) (f : α → Except ε β) :
    ((Except.error e : Except ε α) >>= f) = .error e := rfl

theorem except_map_ok {ε α β : Type} (f : α → β) (a : α) :
    Except.map f (.ok a : Except ε α) = .ok (f a) := rfl

theorem except_map_error {ε α β : Type} (f : α → β) (e : ε) :
    Except.map f (.error e : Except ε α) = .error e := rfl

theorem LinkedChain.ne_nil {α : Type} {server : String → FetchResult (List α)}
    {u : String} {ps : List (List α)} (h : LinkedChain server u ps) : ps ≠ [] := by
  cases h <;> simp

theorem build_pr_data_row_wf_eq (cs : String → FetchResult (List Comment))
    (ls : String → FetchResult (List CommitRef))
    (ds : String → FetchResult CommitData) (repo curl cmurl : String)
    (i : Int) (st cr up mg ti lg du bo : String)
    (rv : Option (List String)) (cm : Option Int) :
    build_pr_data_row cs ls ds
      ⟨some curl, some cmurl, some i, some st, some cr, some up, some mg,
       some ti, some ⟨some lg⟩, some du, some bo, rv, cm⟩ repo =
    some
      { repo_name := repo, pr_id := i, pr_state := st, pr_created_at := cr,
        pr_updated_at := up, pr_merged_at := mg, pr_title := ti,
        pr_user_login := lg, pr_diff_url := du, pr_body := bo,
        pr_reviwer := rv.getD [], pr_comments_count := cm.getD 0,
        pr_comments := fetch_comments cs curl,
        pr_commits_count :=
          if (fetch_commits ls ds cmurl).isEmpty then .str "N/A"
          else .int (fetch_commits ls ds cmurl).length,
        pr_commits_info := fetch_commits ls ds cmurl } := rfl

theorem build_pr_data_row_none_of_not_wf (cs : String → FetchResult (List Comment))
    (ls : String → FetchResult (List CommitRef))
    (ds : String → FetchResult CommitData) (pr : PRSummary) (repo : String)
    (h : PRWellFormed pr = false) :
    build_pr_data_row cs ls ds pr repo = none := by
  rcases pr with ⟨cu, cmu, i, st, cr, up, mg, ti, us, du, bo, rv, cm⟩
  cases cu with
  | none => rfl
  | some curl =>
  cases cmu with
  | none => rfl
  | some cmurl =>
  cases i with
  | none => rfl
  | some i =>
  cases st with
  | none => rfl
  | some st =>
  cases cr with
  | none => rfl
  | some cr =>
  cases up with
  | none => rfl
  | some up =>
  cases mg with
  | none => rfl
  | some mg =>
  cases ti with
  | none => rfl
  | some ti =>
  cases us with
  | none => rfl
  | some u =>
  cases u with
  | mk lg =>
  cases lg with
  | none => rfl
  | some lg =>
  cases du with
  | none => rfl
  | some du =>
  cases bo with
  | none => rfl
  | some bo =>
  simp [PRWellFormed] at h

theorem create_dataframe_rows_eq_filterMap (cs : String → FetchResult (List Comment))
    (ls : String → FetchResult (List CommitRef))
    (ds : String → FetchResult CommitData) (prs : List PRSummary) (repo : String) :
    create_dataframe_rows cs ls ds prs repo =
      prs.filterMap (fun pr => build_pr_data_row cs ls ds pr repo) := by
  have aux : ∀ (l : List PRSummary) (acc : List PRData),
      l.foldl
        (fun rows pr =>
          match build_pr_data_row cs ls ds pr repo with
          | some d => rows ++ [d]
          | none => rows) acc =
        acc ++ l.filterMap (fun pr => build_pr_data_row cs ls ds pr repo) := by
    intro l
    induction l with
    | nil => intro acc; simp
    | cons pr rest ih =>
        intro acc
        cases hb : build_pr_data_row cs ls ds pr repo with
        | none => simp [List.foldl_cons, hb, ih, List.filterMap_cons]
        | some d => simp [List.foldl_cons, hb, ih, List.filterMap_cons]
  exact aux prs []

theorem walkAux_chain {α : Type} {server : String → FetchResult (List α)}
    {u : String} {ps : List (List α)} (hchain : LinkedChain server u ps) :
    ∀ (fuel : Nat) (acc : List α) (follows : Nat), ps.length ≤ fuel →
      walkAux server fuel (some u) acc follows =
        .ok (acc ++ ps.join, follows + (ps.length - 1)) := by
  induction hchain with
  | single v p hv hsv =>
      intro fuel acc follows hf
      obtain ⟨f, rfl⟩ : ∃ f, fuel = f + 1 := ⟨fuel - 1, by simp at hf; omega⟩
      simp [walkAux, hv, make_api_request, hsv]
  | cons v v' p ps lh hv hsv hlh hparse rest ih =>
      intro fuel acc follows hf
      obtain ⟨f, rfl⟩ : ∃ f, fuel = f + 1 := ⟨fuel - 1, by simp at hf; omega⟩
      have hlen : ps.length ≤ f := by simp at hf; omega
      have hne : 1 ≤ ps.length := by
        have := rest.ne_nil
        have := List.length_pos.mpr this
        omega
      have hstep : walkAux server (f + 1) (some v) acc follows =
          walkAux server f (some v') (acc ++ p) (follows + 1) := by
        have hbind : ((do
              let next ← parseLinkHeader lh
              walkAux server f next (acc ++ p) (follows + 1)) :
            Except PyExn (List α × Nat)) =
            walkAux server f (some v') (acc ++ p) (follows + 1) := by
          rw [hparse]
          rfl
        rw [← hbind]
        simp [walkAux, hv, make_api_request, hsv, hlh]
      rw [hstep, ih f (acc ++ p) (follows + 1) hlen]
      simp only [List.join_cons, List.length_cons, List.append_assoc,
        Except.ok.injEq, Prod.mk.injEq]
      exact ⟨trivial, by omega⟩

theorem walkAux_follows_le {α : Type} (server : String → FetchResult (List α)) :
    ∀ (fuel : Nat) (url : Option String) (acc : List α) (follows : Nat)
      (r : List α × Nat), walkAux server fuel url acc follows = .ok r →
      r.2 ≤ follows + fuel := by
  intro fuel
  induction fuel with
  | zero =>
      intro url acc follows r h
      cases url with
      | none =>
          simp only [walkAux] at h
          cases h
          simp
      | some u =>
          simp only [walkAux] at h
          cases h
          simp
  | succ f ih =>
      intro url acc follows r h
      cases url with
      | none =>
          simp only [walkAux] at h
          cases h
          simp
      | some u =>
          by_cases hu : u = ""
          · simp only [walkAux, hu, if_pos] at h
            cases h
            simp
          · simp only [walkAux, if_neg hu] at h
            cases hm : make_api_request server u with
            | none =>
                rw [hm] at h
                cases h
                simp
            | some resp =>
                rw [hm] at h
                dsimp only at h
                cases hl : resp.linkHeader with
                | none =>
                    rw [hl] at h
                    dsimp only at h
                    cases h
                    simp
                | some lh =>
                    rw [hl] at h
                    dsimp only at h
                    by_cases hlh : lh = ""
                    · rw [if_pos hlh] at h
                      cases h
                      simp
                    · rw [if_neg hlh] at h
                      cases hp : parseLinkHeader lh with
                      | error e =>
                          rw [hp] at h
                          exact Except.noConfusion h
                      | ok next =>
                          rw [hp] at h
                          have hrec : walkAux server f next (acc ++ resp.body)
                              (follows + 1) = .ok r := h
                          have := ih next (acc ++ resp.body) (follows + 1) r hrec
                          omega

/-! Claim theorems. -/

/-- C1 counterexample: `is_token_valid` does not return `false` on a
transport-level fault (the uncaught exception propagates instead), and a
204 response — an explicit 2xx success — yields `false`, not `true`. -/
theorem c1_counterexample :
    is_token_valid .fault ≠ .ok false ∧
    is_token_valid (.response 204) ≠ .ok true := by
  decide

/-- C1 (amended): `is_token_valid` returns `true` exactly for status 200
(other 2xx statuses yield `false`), returns `false` for every other
status, and a transport-level fault propagates as an uncaught exception
rather than returning `false`. -/
theorem c1_token_validity_amended :
    (∀ s : Nat, is_token_valid (.response s) = .ok (decide (s = 200))) ∧
    is_token_valid .fault = .error () := by
  refine ⟨fun s => ?_, rfl⟩
  by_cases h : s = 200 <;> simp [is_token_valid, h]

/-- C2 counterexample: a page whose `Link` header contains a segment
without the `"; "` separator makes the walk raise `IndexError` rather
than terminate normally treating it as "no next relation". -/
theorem c2_counterexample :
    get_all_paginated_items malformedHeaderServer 10 "p1" =
      .error .indexError := by
  decide

/-- C2 (amended): an absent continuation header terminates the walk with
that page's items, and so does a header whose every segment contains the
`"; "` separator but which yields no `next` relation; a header with a
segment lacking the separator, however, makes the walk raise
`IndexError`. -/
theorem c2_header_handling_amended (α : Type)
    (server : String → FetchResult (List α)) (maxPages : Int) (u : String)
    (items : List α) (lh : Option String) (hu : u ≠ "") (hmp : 0 < maxPages)
    (hs : server u = .ok ⟨200, items, lh⟩) :
    (lh = none → get_all_paginated_items server maxPages u = .ok items) ∧
    (∀ s, lh = some s → s ≠ "" → parseLinkHeader s = .ok none →
      get_all_paginated_items server maxPages u = .ok items) ∧
    (∀ s e, lh = some s → s ≠ "" → parseLinkHeader s = .error e →
      get_all_paginated_items server maxPages u = .error e) := by
  obtain ⟨f, hf⟩ : ∃ f, maxPages.toNat = f + 1 := ⟨maxPages.toNat - 1, by omega⟩
  refine ⟨fun h1 => ?_, fun s h1 h2 h3 => ?_, fun s e h1 h2 h3 => ?_⟩
  · subst h1
    simp [get_all_paginated_items, hf, walkAux, hu, make_api_request, hs,
      except_map_ok]
  · subst h1
    simp [get_all_paginated_items, hf, walkAux, hu, make_api_request, hs,
      h2, h3, except_bind_ok, except_map_ok]
  · subst h1
    simp [get_all_paginated_items, hf, walkAux, hu, make_api_request, hs,
      h2, h3, except_bind_error, except_map_error]

/-- C2 witness: `noNextHeaderServer`'s header `"x; y"` parses but has no
`next` relation, and the walk terminates with the single page. -/
theorem c2_header_handling_amended_witness :
    get_all_paginated_items noNextHeaderServer 10 "p1" = .ok [5] :=
  (c2_header_handling_amended Nat noNextHeaderServer 10 "p1" [5] (some "x; y")
    (by decide) (by decide) rfl).2.1 "x; y" rfl (by decide) rfl

/-- C3 counterexample: the document-sink insert propagates a raised
`pymongo` error, and the relational sink propagates a MySQL execute
error (only `sqlite3.Error` is caught), so both routing operations can
raise past their boundary. -/
theorem c3_counterexample :
    insert_pr_body_mongodb (.error .mongoError) = .error .mongoError ∧
    insert_pr_data ⟨.mysql, .ok true, .ok (), .raise .mysqlError⟩ =
      .error .mysqlError :=
  ⟨rfl, rfl⟩

/-- C3 (amended): `insert_pr_data` swallows every connection failure and
every `sqlite3.Error` raised by the execute, and completes on success;
but a `mysql.connector.Error` raised by the execute propagates, and
`insert_pr_body_mongodb` has no handling at all — any document-sink
failure propagates. -/
theorem c3_sink_error_handling_amended :
    (∀ env : DbEnv, connect_to_db env = none → insert_pr_data env = .ok ()) ∧
    (∀ env : DbEnv, env.exec = .raise .sqliteError →
      insert_pr_data env = .ok ()) ∧
    (∀ env : DbEnv, env.exec = .ok → insert_pr_data env = .ok ()) ∧
    (∀ env : DbEnv, connect_to_db env = some () →
      env.exec = .raise .mysqlError → insert_pr_data env = .error .mysqlError) ∧
    (∀ n : Nat, insert_pr_body_mongodb (.ok n) = .ok ()) ∧
    (∀ e : PyExn, insert_pr_body_mongodb (.error e) = .error e) := by
  refine ⟨fun env hc => ?_, fun env he => ?_, fun env he => ?_,
    fun env hc he => ?_, fun n => rfl, fun e => rfl⟩
  · unfold insert_pr_data
    rw [hc]
  · unfold insert_pr_data
    cases hc : connect_to_db env with
    | none => rfl
    | some u => rw [he]
  · unfold insert_pr_data
    cases hc : connect_to_db env with
    | none => rfl
    | some u => rw [he]
  · unfold insert_pr_data
    rw [hc, he]

/-- C3 witness: a sqlite execute error is swallowed. -/
theorem c3_sink_error_handling_amended_witness :
    insert_pr_data ⟨.sqlite, .ok false, .ok (), .raise .sqliteError⟩ = .ok () :=
  c3_sink_error_handling_amended.2.1
    ⟨.sqlite, .ok false, .ok (), .raise .sqliteError⟩ rfl

/-- C4: for every chain of N server-linked pages with `max_pages ≥ N`,
the walk returns exactly the concatenation of all pages' item arrays in
server order, and the number of continuation-follow operations performed
(the final `page_count`) never exceeds `max_pages`. -/
theorem c4_chain_concatenation {α : Type}
    {server : String → FetchResult (List α)} {u : String}
    {ps : List (List α)} (hchain : LinkedChain server u ps) (maxPages : Int)
    (hmp : (ps.length : Int) ≤ maxPages) :
    get_all_paginated_items server maxPages u = .ok ps.join ∧
    (∀ r : List α × Nat, walkAux server maxPages.toNat (some u) [] 0 = .ok r →
      (r.2 : Int) ≤ maxPages) := by
  have h0 : 1 ≤ ps.length := by
    have h1 := hchain.ne_nil
    have h2 := List.length_pos.mpr h1
    omega
  have hmp0 : (0 : Int) ≤ maxPages := by omega
  have hfuel : ps.length ≤ maxPages.toNat := by omega
  constructor
  · unfold get_all_paginated_items
    rw [walkAux_chain hchain maxPages.toNat [] 0 hfuel]
    rfl
  · intro r hr
    have hle := walkAux_follows_le server maxPages.toNat (some u) [] 0 r hr
    omega

/-- The two pages of `twoPageServer` form a linked chain. -/
theorem twoPageServer_chain : LinkedChain twoPageServer "p1" [[1, 2], [3]] :=
  .cons "p1" "p2" [1, 2] [[3]] ("<p2>; rel=\"next\"") (by decide) (by decide)
    (by decide) (by decide) (.single "p2" [3] (by decide) (by decide))

/-- C4 witness: the two-page chain concatenates in order. -/
theorem c4_chain_concatenation_witness :
    get_all_paginated_items twoPageServer 10 "p1" = .ok [1, 2, 3] := by
  have h := (c4_chain_concatenation twoPageServer_chain 10 (by decide)).1
  rw [h]
  rfl

/-- C9: the constructor treats `max_pages=0` and `per_page=0` exactly
like not supplying them (the truthiness check falls through to the
defaults 100000 and 100), while a negative `per_page` is accepted
verbatim. -/
theorem c9_constructor_truthiness :
    (mkGitDataCollector "o" "t" "u" (some 0) (some 0) none).max_pages = 100000 ∧
    (mkGitDataCollector "o" "t" "u" (some 0) (some 0) none).per_page = 100 ∧
    (∀ org tok url repo, mkGitDataCollector org tok url (some 0) (some 0) repo =
      mkGitDataCollector org tok url none none repo) ∧
    (∀ org tok url mp repo (p : Int), p < 0 →
      (mkGitDataCollector org tok url mp (some p) repo).per_page = p) := by
  refine ⟨rfl, rfl, fun org tok url repo => rfl,
    fun org tok url mp repo p hp => ?_⟩
  show (if p ≠ 0 ∧ p < 100 then p else 100) = p
  rw [if_pos ⟨by omega, by omega⟩]

/-- C9 witness: a negative `per_page` is stored verbatim. -/
theorem c9_constructor_truthiness_witness :
    (mkGitDataCollector "o" "t" "u" (some 5) (some (-7)) none).per_page = -7 :=
  c9_constructor_truthiness.2.2.2 "o" "t" "u" (some 5) none (-7) (by decide)

/-- C5: when the commit list is fetched successfully, every listed
commit URL yields exactly one entry of `fetch_commits` (the map over the
list, nothing dropped, order kept); a detail-fetch failure yields the
error-marker dict carrying the offending URL, and a 200 detail response
yields the full detail dict. -/
theorem c5_per_commit_entries (ls : String → FetchResult (List CommitRef))
    (ds : String → FetchResult CommitData) (commits_url : String)
    (r : HttpResponse (List CommitRef))
    (hr : make_api_request ls commits_url = some r) (h200 : r.status = 200) :
    fetch_commits ls ds commits_url =
      r.body.map (fun c => create_commit_info ds c.url) ∧
    (fetch_commits ls ds commits_url).length = r.body.length ∧
    (∀ c : CommitRef, make_api_request ds c.url = none →
      create_commit_info ds c.url =
        .fetchError ("Failed to fetch commit data for " ++ c.url)) ∧
    (∀ (cu : String) (rd : HttpResponse CommitData),
      make_api_request ds cu = some rd → rd.status = 200 →
      create_commit_info ds cu =
        .detail rd.body.sha rd.body.stats.additions rd.body.stats.deletions
          (pyDictOfList ((rd.body.files.getD []).map
            (fun fe => (fe.filename, fe.patch.getD "No diff available"))))) := by
  have hmap : fetch_commits ls ds commits_url =
      r.body.map (fun c => create_commit_info ds c.url) := by
    have hall : ∀ ci ∈ r.body.map (fun c => create_commit_info ds c.url),
        decide (ci.keyCount ≠ 0) = true := by
      intro ci _
      cases ci <;> simp [CommitInfo.keyCount]
    simp only [fetch_commits, hr]
    rw [if_pos h200]
    exact List.filter_eq_self.mpr hall
  refine ⟨hmap, by rw [hmap, List.length_map], fun c hc => ?_,
    fun cu rd hrd h200d => ?_⟩
  · unfold create_commit_info
    rw [hc]
  · unfold create_commit_info
    rw [hrd]
    dsimp only
    rw [if_pos h200d]

/-- C5 witness: two listed commits, one failing detail fetch, yield
exactly two entries. -/
theorem c5_per_commit_entries_witness :
    fetch_commits twoCommitListServer oneCommitDetailServer "mu" =
      [create_commit_info oneCommitDetailServer "c1",
       create_commit_info oneCommitDetailServer "c2"] := by
  have h := (c5_per_commit_entries twoCommitListServer oneCommitDetailServer
    "mu" ⟨200, [⟨"c1"⟩, ⟨"c2"⟩], none⟩ rfl rfl).1
  rw [h]
  rfl

/-- C6: on a 200 comments response, `fetch_comments` joins the comment
bodies with a single space in API order; a gateway failure yields the
empty string; with a failing comments endpoint a well-formed PR still
assembles to a non-null record. -/
theorem c6_comment_concatenation (cs : String → FetchResult (List Comment))
    (url : String) :
    (∀ r : HttpResponse (List Comment), make_api_request cs url = some r →
      r.status = 200 →
      fetch_comments cs url = String.intercalate " " (r.body.map Comment.body)) ∧
    (make_api_request cs url = none → fetch_comments cs url = "") ∧
    (∀ (ls : String → FetchResult (List CommitRef))
       (ds : String → FetchResult CommitData) (repo cmurl : String) (i : Int)
       (st cr up mg ti lg du bo : String) (rv : Option (List String))
       (cm : Option Int), make_api_request cs url = none →
      build_pr_data_row cs ls ds
        ⟨some url, some cmurl, some i, some st, some cr, some up, some mg,
         some ti, some ⟨some lg⟩, some du, some bo, rv, cm⟩ repo ≠ none) := by
  refine ⟨fun r hr h200 => ?_, fun hn => ?_,
    fun ls ds repo cmurl i st cr up mg ti lg du bo rv cm hn => ?_⟩
  · simp only [fetch_comments, hr]
    rw [if_pos h200]
  · simp only [fetch_comments, hn]
    rfl
  · rw [build_pr_data_row_wf_eq]
    simp

/-- C6 witness: comments "hello" and "world" join to "hello world". -/
theorem c6_comment_concatenation_witness :
    fetch_comments helloWorldCommentServer "cu" = "hello world" := by
  have h := (c6_comment_concatenation helloWorldCommentServer "cu").1
    ⟨200, [⟨"hello"⟩, ⟨"world"⟩], none⟩ rfl rfl
  rw [h]
  rfl

/-- C7: a PR whose commit-list fetch fails still assembles to a record
(not null) with an empty commit list and the string sentinel "N/A" as
commit count; a genuinely empty commit list yields the same sentinel. -/
theorem c7_commits_na_sentinel (cs : String → FetchResult (List Comment))
    (ls : String → FetchResult (List CommitRef))
    (ds : String → FetchResult CommitData) (repo curl cmurl : String)
    (i : Int) (st cr up mg ti lg du bo : String) (rv : Option (List String))
    (cm : Option Int) :
    (make_api_request ls cmurl = none →
      ∃ d, build_pr_data_row cs ls ds
          ⟨some curl, some cmurl, some i, some st, some cr, some up, some mg,
           some ti, some ⟨some lg⟩, some du, some bo, rv, cm⟩ repo = some d ∧
        d.pr_commits_info = [] ∧ d.pr_commits_count = .str "N/A") ∧
    (∀ r : HttpResponse (List CommitRef), make_api_request ls cmurl = some r →
      r.status = 200 → r.body = [] →
      ∃ d, build_pr_data_row cs ls ds
          ⟨some curl, some cmurl, some i, some st, some cr, some up, some mg,
           some ti, some ⟨some lg⟩, some du, some bo, rv, cm⟩ repo = some d ∧
        d.pr_commits_info = [] ∧ d.pr_commits_count = .str "N/A") := by
  constructor
  · intro hn
    have hfc : fetch_commits ls ds cmurl = [] := by
      simp [fetch_commits, hn]
    exact ⟨_, build_pr_data_row_wf_eq cs ls ds repo curl cmurl i st cr up mg
      ti lg du bo rv cm, by simp [hfc], by simp [hfc]⟩
  · intro r hr h200 hbody
    have hfc : fetch_commits ls ds cmurl = [] := by
      simp [fetch_commits, hr, h200, hbody]
    exact ⟨_, build_pr_data_row_wf_eq cs ls ds repo curl cmurl i st cr up mg
      ti lg du bo rv cm, by simp [hfc], by simp [hfc]⟩

/-- C7 witness: with both commit endpoints failing, `samplePR` still
assembles with empty commits and the "N/A" sentinel. -/
theorem c7_commits_na_sentinel_witness :
    ∃ d, build_pr_data_row singleCommentServer (failingServer (List CommitRef))
        (failingServer CommitData) samplePR "r" = some d ∧
      d.pr_commits_info = [] ∧ d.pr_commits_count = .str "N/A" :=
  (c7_commits_na_sentinel singleCommentServer (failingServer (List CommitRef))
    (failingServer CommitData) "r" "cu" "mu" 9 "open" "t0" "t1" "t2" "Title"
    "alice" "du" "Body" (some []) (some 0)).1 rfl

/-- C8: a PR summary missing a required key makes `build_pr_data_row`
return null (the broad `except` swallows the `KeyError`), and the
row-collection loop skips the null so sibling PRs on either side are
still processed into rows. -/
theorem c8_assembly_failure_null (cs : String → FetchResult (List Comment))
    (ls : String → FetchResult (List CommitRef))
    (ds : String → FetchResult CommitData) (pr : PRSummary) (repo : String)
    (h : PRWellFormed pr = false) :
    build_pr_data_row cs ls ds pr repo = none ∧
    (∀ pre post : List PRSummary,
      create_dataframe_rows cs ls ds (pre ++ pr :: post) repo =
        create_dataframe_rows cs ls ds (pre ++ post) repo) := by
  have hb := build_pr_data_row_none_of_not_wf cs ls ds pr repo h
  refine ⟨hb, fun pre post => ?_⟩
  simp [create_dataframe_rows_eq_filterMap, List.filterMap_append,
    List.filterMap_cons, hb]

/-- C8 witness: a PR summary without a `title` key yields null. -/
theorem c8_assembly_failure_null_witness :
    build_pr_data_row singleCommentServer (failingServer (List CommitRef))
      (failingServer CommitData) missingTitlePR "r" = none :=
  (c8_assembly_failure_null singleCommentServer (failingServer (List CommitRef))
    (failingServer CommitData) missingTitlePR "r" (by decide)).1

/-- C10: the `pr_comments_count` field of every assembled record is the
summary's own `comments` field (defaulting to 0 when absent), not the
fetched comment collection; concretely, `samplePR` (summary count 0)
with a comments endpoint returning one comment assembles to a record
with count 0 and non-empty comment text. -/
theorem c10_comment_count_from_summary :
    (∀ (cs : String → FetchResult (List Comment))
       (ls : String → FetchResult (List CommitRef))
       (ds : String → FetchResult CommitData) (pr : PRSummary) (repo : String)
       (d : PRData), build_pr_data_row cs ls ds pr repo = some d →
      d.pr_comments_count = pr.comments.getD 0) ∧
    (∃ d : PRData,
      build_pr_data_row singleCommentServer (failingServer (List CommitRef))
        (failingServer CommitData) samplePR "r" = some d ∧
      d.pr_comments_count = 0 ∧ d.pr_comments ≠ "") := by
  constructor
  · intro cs ls ds pr repo d hd
    rcases pr with ⟨cu, cmu, i, st, cr, up, mg, ti, us, du, bo, rv, cm⟩
    cases cu with
    | none => exact Option.noConfusion hd
    | some curl =>
    cases cmu with
    | none => exact Option.noConfusion hd
    | some cmurl =>
    cases i with
    | none => exact Option.noConfusion hd
    | some i =>
    cases st with
    | none => exact Option.noConfusion hd
    | some st =>
    cases cr with
    | none => exact Option.noConfusion hd
    | some cr =>
    cases up with
    | none => exact Option.noConfusion hd
    | some up =>
    cases mg with
    | none => exact Option.noConfusion hd
    | some mg =>
    cases ti with
    | none => exact Option.noConfusion hd
    | some ti =>
    cases us with
    | none => exact Option.noConfusion hd
    | some u =>
    cases u with
    | mk lg =>
    cases lg with
    | none => exact Option.noConfusion hd
    | some lg =>
    cases du with
    | none => exact Option.noConfusion hd
    | some du =>
    cases bo with
    | none => exact Option.noConfusion hd
    | some bo =>
    rw [build_pr_data_row_wf_eq] at hd
    injection hd with hdd
    subst hdd
    rfl
  · exact ⟨samplePRRecord, by decide, by decide, by decide⟩

/-- C10 witness: the assembled `samplePRRecord`'s count equals the
summary field. -/
theorem c10_comment_count_from_summary_witness :
    samplePRRecord.pr_comments_count = samplePR.comments.getD 0 :=
  c10_comment_count_from_summary.1 singleCommentServer
    (failingServer (List CommitRef)) (failingServer CommitData) samplePR "r"
    samplePRRecord (by decide)

end GithubCollector
